import Mathlib

/-!
Verification of the collection-consistency core of this repository.

Two source modules are embedded shallowly:

* `src/backend/open_webui/storage/s3_storage_provider.py` — the S3 storage
  backend.  Python `str` is modelled as `List Char`, `bytes` as `List UInt8`,
  the S3 object store as an association list from `(bucket, key)` to contents
  (a fresh `put_object` shadows an older one; `find?` returns the latest
  write).  `aioboto3` client failures are modelled by a `backendOk : Bool`
  oracle passed to the operation that can fail.

* `src/backend/open_webui/apps/webui/routers/knowledge.py` — the collection
  synchronizer.  The backing stores (`Knowledges`, `Files`,
  `VECTOR_DB_CLIENT`, `process_file`) live in repository modules that are not
  part of the excerpt; they are modelled from the spec's store contracts
  (§4.1, §4.5, and the Vector Index description), as marked on each
  definition.  The router bodies themselves are translated line by line from
  the source.
-/

/-! ## Python string splitting

`str.split(sep)` and `str.split(sep, 1)` for the two separators the source
uses (`"//"` and `"/"`), over `List Char`.  `consHead c` prepends `c` to the
first segment of a split result. -/

def consHead (c : Char) : List (List Char) → List (List Char)
  | [] => [[c]]
  | x :: xs => (c :: x) :: xs

/-- Python `s.split("//")`: non-overlapping, left-to-right. -/
def splitSS : List Char → List (List Char)
  | [] => [[]]
  | [c] => [[c]]
  | c :: d :: rest =>
    if c = '/' ∧ d = '/' then [] :: splitSS rest
    else consHead c (splitSS (d :: rest))

/-- Python `s.split("/", 1)`. -/
def splitFirstSlash : List Char → List (List Char)
  | [] => [[]]
  | c :: rest => if c = '/' then [[], rest] else consHead c (splitFirstSlash rest)

/-- `noSS l = true` iff `"//"` does not occur in `l`. -/
def noSS : List Char → Bool
  | [] => true
  | [_] => true
  | c :: d :: rest => !(c == '/' && d == '/') && noSS (d :: rest)

/-! ## S3StorageProvider -/

/-- The S3 object store: latest writes first; `find?` sees the latest. -/
structure S3State where
  objects : List ((List Char × List Char) × List UInt8)
deriving DecidableEq

/-- Outcome of `upload_file`: `ValueError(EMPTY_CONTENT)`, the `RuntimeError`
wrapping a client failure, or the returned `(contents, locator)` pair. -/
inductive UploadResult where
  | emptyContent
  | backendError
  | ok (contents : List UInt8) (locator : List Char)
deriving DecidableEq

/-- The object key written by `upload_file`: `f"{self.bucket_prefix}/{filename}"`. -/
def s3_key (pfx filename : List Char) : List Char := pfx ++ '/' :: filename

/-- The locator returned by `upload_file`:
`f"s3://{self.bucket_name}/{self.bucket_prefix}/{filename}"`. -/
def s3_locator (bucket pfx filename : List Char) : List Char :=
  "s3://".data ++ bucket ++ '/' :: (pfx ++ '/' :: filename)

/-- `S3StorageProvider.upload_file`.  `backendOk` models whether the
`put_object` call succeeds; on failure the `RuntimeError` is surfaced. -/
def upload_file (bucket pfx : List Char) (st : S3State)
    (contents : List UInt8) (filename : List Char) (backendOk : Bool) :
    UploadResult × S3State :=
  if contents = [] then (.emptyContent, st)
  else if !backendOk then (.backendError, st)
  else (.ok contents (s3_locator bucket pfx filename),
        ⟨((bucket, s3_key pfx filename), contents) :: st.objects⟩)

/-- The locator parse shared by `get_file` and `as_local_file`:
`file_path.split("//")[1].split("/", 1)` unpacked into `(bucket_name, key)`.
`none` models the `IndexError`/`ValueError` paths (both re-raised as
`RuntimeError`). -/
def parse_locator (file_path : List Char) : Option (List Char × List Char) :=
  match (splitSS file_path)[1]? with
  | none => none
  | some rest =>
    match splitFirstSlash rest with
    | [b, k] => some (b, k)
    | _ => none

/-- `S3StorageProvider.get_file`: parse the locator, then `get_object` on the
parsed bucket and key.  The streamed body is collapsed to the whole byte
content; `none` is the `RuntimeError` path (parse failure or missing key). -/
def get_file (st : S3State) (file_path : List Char) : Option (List UInt8) :=
  match parse_locator file_path with
  | none => none
  | some bk =>
    match st.objects.find? (fun o => o.1.1 == bk.1 && o.1.2 == bk.2) with
    | none => none
    | some o => some o.2

/-- `S3StorageProvider.delete_file`: `delete_object(Bucket=self.bucket_name,
Key=filename)` — the argument string is used as the key verbatim, with no
locator parsing. -/
def delete_file (bucket : List Char) (st : S3State) (filename : List Char) : S3State :=
  ⟨st.objects.filter (fun o => !(o.1.1 == bucket && o.1.2 == filename))⟩

/-! ### Splitting lemmas -/

theorem splitSS_of_noSS : ∀ l : List Char, noSS l = true → splitSS l = [l]
  | [], _ => rfl
  | [_], _ => rfl
  | c :: d :: rest, h => by
    have hnot : ¬(c = '/' ∧ d = '/') := by
      intro hcd
      simp [noSS, hcd.1, hcd.2] at h
    have htail : noSS (d :: rest) = true := by
      simp only [noSS, Bool.and_eq_true] at h
      exact h.2
    have ih := splitSS_of_noSS (d :: rest) htail
    simp [splitSS, if_neg hnot, ih, consHead]

theorem splitSS_append_sep :
    ∀ a rest : List Char, (∀ c ∈ a, c ≠ '/') →
      splitSS (a ++ '/' :: '/' :: rest) = a :: splitSS rest
  | [], rest, _ => by
    simp [splitSS]
  | [c], rest, h => by
    have hc : c ≠ '/' := h c (by simp)
    simp [splitSS, hc, consHead]
  | c :: e :: a, rest, h => by
    have hc : c ≠ '/' := h c (by simp)
    have ih := splitSS_append_sep (e :: a) rest (fun x hx => h x (List.mem_cons_of_mem _ hx))
    have hnot : ¬(c = '/' ∧ e = '/') := fun hce => hc hce.1
    calc splitSS (c :: e :: (a ++ '/' :: '/' :: rest))
        = consHead c (splitSS (e :: (a ++ '/' :: '/' :: rest))) := by
          simp [splitSS, if_neg hnot]
      _ = consHead c ((e :: a) :: splitSS rest) := by
          rw [show e :: (a ++ '/' :: '/' :: rest) = (e :: a) ++ '/' :: '/' :: rest from rfl, ih]
      _ = (c :: e :: a) :: splitSS rest := rfl

theorem splitFirstSlash_append :
    ∀ b k : List Char, (∀ c ∈ b, c ≠ '/') →
      splitFirstSlash (b ++ '/' :: k) = [b, k]
  | [], k, _ => by simp [splitFirstSlash]
  | c :: b, k, h => by
    have hc : c ≠ '/' := h c (by simp)
    have ih := splitFirstSlash_append b k (fun x hx => h x (List.mem_cons_of_mem _ hx))
    simp [splitFirstSlash, hc, ih, consHead]

/-! ## Knowledge router

Data model and the three synchronizer routes of
`apps/webui/routers/knowledge.py`.  String identifiers stay `String`. -/

/-- A `FileModel` row as the router reads it: `data` is the truthiness of
`file.data` — `true` iff processed content exists (`if not file.data` is the
`FILE_NOT_PROCESSED` check). -/
structure FileRecord where
  id : String
  data : Bool
deriving DecidableEq

/-- A knowledge row.  `data = some l` models a `data` dict whose
`"file_ids"` entry is `l` (a dict without the key reads as `[]` via
`data.get("file_ids", [])`, indistinguishable from `some []`); `data = none`
models a falsy `knowledge.data`, which `knowledge.data or {}` turns into
`{}`. -/
structure Knowledge where
  id : String
  data : Option (List String)
deriving DecidableEq

/-- Combined state of the three backing stores: file records, knowledge
records, the vector index (one entry per `process_file` call, tagged
`(collection_id, file_id)`), and the blob store (ids of files whose blob
exists). -/
structure SyncState where
  files : List FileRecord
  knowledges : List Knowledge
  vectors : List (String × String)
  blobs : List String
deriving DecidableEq

/-- Modelled from the spec: Knowledge Record Store `get(id) -> Collection |
None` (§4.1); `Knowledges.get_knowledge_by_id` lives in a module outside the
excerpt. -/
def get_knowledge_by_id (s : SyncState) (id : String) : Option Knowledge :=
  s.knowledges.find? (fun k => k.id == id)

/-- Modelled from the spec: File Record Store lookup (`Files.get_file_by_id`,
outside the excerpt). -/
def get_file_by_id (s : SyncState) (fid : String) : Option FileRecord :=
  s.files.find? (fun f => f.id == fid)

/-- Modelled from the spec: `Files.get_files_by_ids`, the member-file
projection returned on success. -/
def get_files_by_ids (s : SyncState) (ids : List String) : List FileRecord :=
  ids.filterMap (fun i => get_file_by_id s i)

/-- `(knowledge.data or {}).get("file_ids", [])`. -/
def knowledge_file_ids (k : Knowledge) : List String := k.data.getD []

/-- Modelled from the spec: Knowledge Record Store `update(id, partialForm)
-> Collection | None` (§4.1) — replaces the metadata (here: `file_ids`)
atomically, returns `None` when no such collection exists.
(`Knowledges.update_knowledge_by_id` is outside the excerpt.) -/
def update_knowledge_by_id (s : SyncState) (id : String) (fids : List String) :
    Option Knowledge × SyncState :=
  match get_knowledge_by_id s id with
  | none => (none, s)
  | some _ =>
    let upd : Knowledge := { id := id, data := some fids }
    (some upd, { s with knowledges := s.knowledges.map (fun k => if k.id == id then upd else k) })

/-- Modelled from the spec: `VECTOR_DB_CLIENT.delete(collection_name,
filter={"file_id": fid})` — delete by file-id filter within a collection,
idempotent (outside the excerpt). -/
def vector_delete (s : SyncState) (collection_name : String) (file_id : String) : SyncState :=
  { s with vectors := s.vectors.filter (fun e => !(e.1 == collection_name && e.2 == file_id)) }

/-- Modelled from the spec: `VECTOR_DB_CLIENT.delete_collection` — whole
collection deletion, idempotent if absent (outside the excerpt). -/
def vector_delete_collection (s : SyncState) (collection_name : String) : SyncState :=
  { s with vectors := s.vectors.filter (fun e => !(e.1 == collection_name)) }

/-- Modelled from the spec: `process_file(ProcessFileForm(file_id,
collection_name))` indexes the file's extracted content into the
collection's index (outside the excerpt); represented as one new entry
tagged `(collection_name, file_id)`. -/
def process_file (s : SyncState) (file_id : String) (collection_name : String) : SyncState :=
  { s with vectors := (collection_name, file_id) :: s.vectors }

/-- Modelled from the spec: `Files.delete_file_by_id` is the File Record
Store's deletion helper, deleting both the record and the file's blob
through the Storage Provider (§4.3 step 3, §4.5; outside the excerpt). -/
def delete_file_by_id (s : SyncState) (fid : String) : SyncState :=
  { s with files := s.files.filter (fun f => !(f.id == fid)),
           blobs := s.blobs.filter (fun b => !(b == fid)) }

/-- Modelled from the spec: Knowledge Record Store `delete(id) -> bool`,
true iff a record existed and was removed (§4.1;
`Knowledges.delete_knowledge_by_id` is outside the excerpt). -/
def knowledges_delete_knowledge_by_id (s : SyncState) (id : String) : Bool × SyncState :=
  (s.knowledges.any (fun k => k.id == id),
   { s with knowledges := s.knowledges.filter (fun k => !(k.id == id)) })

/-- Outcome of `add_file_to_knowledge_by_id`, one constructor per
`HTTPException`/return site of the route. -/
inductive AddFileResult where
  | notFoundFile
  | fileNotProcessed
  | indexingFailed
  | notFoundKnowledge
  | conflictFileId
  | updateFailedKnowledge
  | ok (knowledge : Knowledge) (files : List FileRecord)
deriving DecidableEq

/-- `add_file_to_knowledge_by_id` (knowledge.py lines 136–196), translated
line by line.  `indexOk` models whether the `process_file` call succeeds; on
failure the route re-raises with no state change (`indexingFailed`). -/
def add_file_to_knowledge_by_id (s : SyncState) (id : String) (file_id : String)
    (indexOk : Bool) : AddFileResult × SyncState :=
  let knowledge := get_knowledge_by_id s id
  match get_file_by_id s file_id with
  | none => (.notFoundFile, s)
  | some file =>
    if !file.data then (.fileNotProcessed, s)
    else if !indexOk then (.indexingFailed, s)
    else
      let s1 := process_file s file_id id
      match knowledge with
      | none => (.notFoundKnowledge, s1)
      | some k =>
        let file_ids := knowledge_file_ids k
        if file_id ∈ file_ids then (.conflictFileId, s1)
        else
          let fids : List String := file_ids ++ [file_id]
          match update_knowledge_by_id s1 id fids with
          | (none, s2) => (.updateFailedKnowledge, s2)
          | (some k2, s2) => (.ok k2 (get_files_by_ids s2 fids), s2)

/-- Outcome of `remove_file_from_knowledge_by_id`.  `attributeErrorNoneId`
is the uncaught `AttributeError` raised when `knowledge` is `None` and
`knowledge.id` is read at the `VECTOR_DB_CLIENT.delete` call (line 224) —
a crash, not an `HTTPException`.  `notFoundKnowledge` is the route's
`else: NOT_FOUND` branch (lines 258–262), unreachable because the crash
precedes it. -/
inductive RemoveFileResult where
  | notFoundFile
  | attributeErrorNoneId
  | conflictFileId
  | updateFailedKnowledge
  | notFoundKnowledge
  | ok (knowledge : Knowledge) (files : List FileRecord)
deriving DecidableEq

/-- `remove_file_from_knowledge_by_id` (knowledge.py lines 209–262),
translated line by line. -/
def remove_file_from_knowledge_by_id (s : SyncState) (id : String) (file_id : String) :
    RemoveFileResult × SyncState :=
  let knowledge := get_knowledge_by_id s id
  match get_file_by_id s file_id with
  | none => (.notFoundFile, s)
  | some _ =>
    match knowledge with
    | none => (.attributeErrorNoneId, s)
    | some k =>
      let s1 := vector_delete s k.id file_id
      let s2 := delete_file_by_id s1 file_id
      let file_ids := knowledge_file_ids k
      if file_id ∈ file_ids then
        let fids : List String := file_ids.erase file_id
        match update_knowledge_by_id s2 id fids with
        | (none, s3) => (.updateFailedKnowledge, s3)
        | (some k2, s3) => (.ok k2 (get_files_by_ids s3 fids), s3)
      else (.conflictFileId, s2)

/-- `delete_knowledge_by_id` (knowledge.py lines 271–274):
`VECTOR_DB_CLIENT.delete_collection(collection_name=id)` then
`Knowledges.delete_knowledge_by_id(id)`, returning the latter's result. -/
def delete_knowledge_by_id (s : SyncState) (id : String) : Bool × SyncState :=
  knowledges_delete_knowledge_by_id (vector_delete_collection s id) id

/-- Spec invariant I2: every collection's `file_ids` contains no
duplicates. -/
def I2 (s : SyncState) : Prop := ∀ k ∈ s.knowledges, (knowledge_file_ids k).Nodup

instance (s : SyncState) : Decidable (I2 s) := by
  unfold I2; infer_instance

/-! ### Sample states used by witnesses and counterexamples -/

/-- A processed file `F1` with its blob and one indexed entry, but no
knowledge record `K1`. -/
def stNoCollection : SyncState :=
  { files := [⟨"F1", true⟩], knowledges := [], vectors := [("K1", "F1")], blobs := ["F1"] }

/-- A processed file `F1` that is already a member of collection `K1`. -/
def stMember : SyncState :=
  { files := [⟨"F1", true⟩], knowledges := [⟨"K1", some ["F1"]⟩],
    vectors := [("K1", "F1")], blobs := ["F1"] }

/-- A processed file `F2` that is not a member of the existing collection
`K1`. -/
def stNonMember : SyncState :=
  { files := [⟨"F1", true⟩, ⟨"F2", true⟩], knowledges := [⟨"K1", some ["F1"]⟩],
    vectors := [("K1", "F1")], blobs := ["F1", "F2"] }

/-- An unprocessed file `F3` alongside collection `K1`. -/
def stUnprocessed : SyncState :=
  { files := [⟨"F3", false⟩], knowledges := [⟨"K1", some []⟩], vectors := [], blobs := ["F3"] }


/-! ## Claims -/

/-- C1: the claim says a `removeFile` call where the file record exists but
no collection record exists reaches step 4's existence check and fails with
a typed `NotFound(collection)`.  The code instead reads `knowledge.id` at
the `VECTOR_DB_CLIENT.delete` call before the `if knowledge:` check, so with
`knowledge = None` it crashes with an uncaught `AttributeError`
(`attributeErrorNoneId`), never reaching the route's `NOT_FOUND` branch;
no deletion has happened at that point. -/
theorem removeFile_missing_collection_crashes :
    remove_file_from_knowledge_by_id stNoCollection "K1" "F1"
      = (.attributeErrorNoneId, stNoCollection) := by decide

/-- C2: `addFile` checks its preconditions in exactly the claimed order,
each yielding a distinct failure: missing file (regardless of anything
else), unprocessed file (regardless of indexing, collection or membership),
indexing failure (regardless of collection or membership, with no state
change), missing collection (only after a successful index write — the new
vector entry is recorded against the nonexistent collection id), and
finally duplicate membership. -/
theorem addFile_precondition_order
    (s1 : SyncState) (id1 fid1 : String) (ok1 : Bool)
    (h1 : get_file_by_id s1 fid1 = none)
    (s2 : SyncState) (id2 fid2 : String) (ok2 : Bool) (f2 : FileRecord)
    (h2a : get_file_by_id s2 fid2 = some f2) (h2b : f2.data = false)
    (s3 : SyncState) (id3 fid3 : String) (f3 : FileRecord)
    (h3a : get_file_by_id s3 fid3 = some f3) (h3b : f3.data = true)
    (s4 : SyncState) (id4 fid4 : String) (f4 : FileRecord)
    (h4a : get_file_by_id s4 fid4 = some f4) (h4b : f4.data = true)
    (h4c : get_knowledge_by_id s4 id4 = none)
    (s5 : SyncState) (id5 fid5 : String) (f5 : FileRecord) (k5 : Knowledge)
    (h5a : get_file_by_id s5 fid5 = some f5) (h5b : f5.data = true)
    (h5c : get_knowledge_by_id s5 id5 = some k5)
    (h5d : fid5 ∈ knowledge_file_ids k5) :
    add_file_to_knowledge_by_id s1 id1 fid1 ok1 = (.notFoundFile, s1)
    ∧ add_file_to_knowledge_by_id s2 id2 fid2 ok2 = (.fileNotProcessed, s2)
    ∧ add_file_to_knowledge_by_id s3 id3 fid3 false = (.indexingFailed, s3)
    ∧ add_file_to_knowledge_by_id s4 id4 fid4 true
        = (.notFoundKnowledge, { s4 with vectors := (id4, fid4) :: s4.vectors })
    ∧ (add_file_to_knowledge_by_id s5 id5 fid5 true).1 = .conflictFileId := by
  refine ⟨?_, ?_, ?_, ?_, ?_⟩
  · simp [add_file_to_knowledge_by_id, h1]
  · simp [add_file_to_knowledge_by_id, h2a, h2b]
  · simp [add_file_to_knowledge_by_id, h3a, h3b]
  · simp [add_file_to_knowledge_by_id, h4a, h4b, h4c, process_file]
  · simp [add_file_to_knowledge_by_id, h5a, h5b, h5c, h5d, process_file]

/-- Witness for C2's theorem at concrete states. -/
theorem addFile_precondition_order_witness :
    add_file_to_knowledge_by_id stUnprocessed "K1" "F9" true = (.notFoundFile, stUnprocessed)
    ∧ add_file_to_knowledge_by_id stUnprocessed "K1" "F3" true
        = (.fileNotProcessed, stUnprocessed)
    ∧ add_file_to_knowledge_by_id stMember "K1" "F1" false = (.indexingFailed, stMember)
    ∧ add_file_to_knowledge_by_id stNoCollection "K1" "F1" true
        = (.notFoundKnowledge,
           { stNoCollection with vectors := ("K1", "F1") :: stNoCollection.vectors })
    ∧ (add_file_to_knowledge_by_id stMember "K1" "F1" true).1 = .conflictFileId :=
  addFile_precondition_order
    stUnprocessed "K1" "F9" true (by decide)
    stUnprocessed "K1" "F3" true ⟨"F3", false⟩ (by decide) (by decide)
    stMember "K1" "F1" ⟨"F1", true⟩ (by decide) (by decide)
    stNoCollection "K1" "F1" ⟨"F1", true⟩ (by decide) (by decide) (by decide)
    stMember "K1" "F1" ⟨"F1", true⟩ ⟨"K1", some ["F1"]⟩ (by decide) (by decide)
    (by decide) (by decide)

/-- C3 counterexample: the claim asserts that after an `addFile` whose
indexing step fails, the collection's `file_ids` does not contain the
file_id.  When the file is already a member and indexing fails, the call
aborts with `indexingFailed` and the unchanged record still contains the
file_id. -/
theorem addFile_indexing_failure_member_counterexample :
    add_file_to_knowledge_by_id stMember "K1" "F1" false = (.indexingFailed, stMember)
    ∧ (get_knowledge_by_id stMember "K1").map knowledge_file_ids = some ["F1"]
    ∧ "F1" ∈ (["F1"] : List String) := by decide

/-- C3 (amended): when the vector-indexing step fails, `addFile` aborts with
`IndexingFailed` and the state — in particular the knowledge record and its
`file_ids` — is exactly as before the call, so `file_ids` contains the
file_id afterwards only if it already did before. -/
theorem addFile_indexing_failure_no_mutation
    (s : SyncState) (id fid : String) (f : FileRecord)
    (hf : get_file_by_id s fid = some f) (hd : f.data = true) :
    add_file_to_knowledge_by_id s id fid false = (.indexingFailed, s) := by
  simp [add_file_to_knowledge_by_id, hf, hd]

/-- Witness for C3's amended theorem. -/
theorem addFile_indexing_failure_no_mutation_witness :
    add_file_to_knowledge_by_id stNonMember "K1" "F2" false = (.indexingFailed, stNonMember) :=
  addFile_indexing_failure_no_mutation stNonMember "K1" "F2" ⟨"F2", true⟩ (by decide) rfl

/-- C9: an `addFile` whose file exists and is processed, whose collection
exists, and whose file_id is already a member fails with the
duplicate-member conflict, yet `process_file` has already run: the vector
index carries one more entry tagged `(collection_id, file_id)` than before
the call, while everything else is unchanged. -/
theorem addFile_duplicate_member_still_indexes
    (s : SyncState) (id fid : String) (f : FileRecord) (k : Knowledge)
    (hf : get_file_by_id s fid = some f) (hd : f.data = true)
    (hk : get_knowledge_by_id s id = some k)
    (hm : fid ∈ knowledge_file_ids k) :
    add_file_to_knowledge_by_id s id fid true
      = (.conflictFileId, { s with vectors := (id, fid) :: s.vectors }) := by
  simp [add_file_to_knowledge_by_id, hf, hd, hk, hm, process_file]

/-- Witness for C9's theorem. -/
theorem addFile_duplicate_member_still_indexes_witness :
    add_file_to_knowledge_by_id stMember "K1" "F1" true
      = (.conflictFileId, { stMember with vectors := ("K1", "F1") :: stMember.vectors }) :=
  addFile_duplicate_member_still_indexes stMember "K1" "F1" ⟨"F1", true⟩
    ⟨"K1", some ["F1"]⟩ (by decide) rfl (by decide) (by decide)

/-- C4: in `removeFile`, vector-entry deletion and file-record/blob deletion
are unconditional and precede the membership check: a call that fails with
the not-a-member conflict has already removed every vector entry tagged
`(collection, file_id)`, the file record, and the blob, and no rollback
happens (the knowledge records are left untouched). -/
theorem removeFile_deletes_before_membership_check
    (s : SyncState) (id fid : String) (f : FileRecord) (k : Knowledge)
    (hf : get_file_by_id s fid = some f)
    (hk : get_knowledge_by_id s id = some k)
    (hm : fid ∉ knowledge_file_ids k) :
    (remove_file_from_knowledge_by_id s id fid).1 = .conflictFileId
    ∧ (∀ e ∈ (remove_file_from_knowledge_by_id s id fid).2.vectors,
        ¬(e.1 = k.id ∧ e.2 = fid))
    ∧ get_file_by_id (remove_file_from_knowledge_by_id s id fid).2 fid = none
    ∧ fid ∉ (remove_file_from_knowledge_by_id s id fid).2.blobs
    ∧ (remove_file_from_knowledge_by_id s id fid).2.knowledges = s.knowledges := by
  have hstep : remove_file_from_knowledge_by_id s id fid
      = (.conflictFileId, delete_file_by_id (vector_delete s k.id fid) fid) := by
    simp [remove_file_from_knowledge_by_id, hf, hk, hm]
  rw [hstep]
  refine ⟨rfl, ?_, ?_, ?_, rfl⟩
  · intro e he
    simp only [delete_file_by_id, vector_delete, List.mem_filter, Bool.not_eq_eq_eq_not,
      Bool.not_true, Bool.and_eq_false_imp, beq_iff_eq] at he
    intro hcon
    exact absurd (he.2 hcon.1) (by simpa using hcon.2)
  · apply List.find?_eq_none.mpr
    intro x hx
    simp only [delete_file_by_id, vector_delete, List.mem_filter] at hx
    simpa using hx.2
  · intro hmem
    simp [delete_file_by_id, vector_delete, List.mem_filter] at hmem

/-- Witness for C4's theorem. -/
theorem removeFile_deletes_before_membership_check_witness :
    (remove_file_from_knowledge_by_id stNonMember "K1" "F2").1 = .conflictFileId
    ∧ (∀ e ∈ (remove_file_from_knowledge_by_id stNonMember "K1" "F2").2.vectors,
        ¬(e.1 = ("K1" : String) ∧ e.2 = ("F2" : String)))
    ∧ get_file_by_id (remove_file_from_knowledge_by_id stNonMember "K1" "F2").2 "F2" = none
    ∧ ("F2" : String) ∉ (remove_file_from_knowledge_by_id stNonMember "K1" "F2").2.blobs
    ∧ (remove_file_from_knowledge_by_id stNonMember "K1" "F2").2.knowledges
        = stNonMember.knowledges :=
  removeFile_deletes_before_membership_check stNonMember "K1" "F2" ⟨"F2", true⟩
    ⟨"K1", some ["F1"]⟩ (by decide) (by decide) (by decide)

/-! ### I2 preservation helpers -/

theorem I2_of_knowledges_eq {s t : SyncState} (h : I2 s)
    (he : t.knowledges = s.knowledges) : I2 t := by
  intro k hk
  exact h k (he ▸ hk)

theorem I2_update (s : SyncState) (id : String) (fids : List String) (h : I2 s)
    (hnd : fids.Nodup) : I2 (update_knowledge_by_id s id fids).2 := by
  unfold update_knowledge_by_id
  cases hg : get_knowledge_by_id s id with
  | none => exact h
  | some k =>
    intro j hj
    simp only [List.mem_map] at hj
    obtain ⟨k0, hk0, rfl⟩ := hj
    by_cases hid : (k0.id == id) = true
    · rw [if_pos hid]
      simpa [knowledge_file_ids] using hnd
    · rw [if_neg hid]
      exact h k0 hk0

theorem I2_addFile (s : SyncState) (id fid : String) (ok : Bool) (h : I2 s) :
    I2 (add_file_to_knowledge_by_id s id fid ok).2 := by
  unfold add_file_to_knowledge_by_id
  cases hgf : get_file_by_id s fid with
  | none => exact h
  | some f =>
    simp only []
    cases hfd : f.data with
    | false => simpa using h
    | true =>
      cases ok with
      | false => simpa using h
      | true =>
        simp only [Bool.not_true, Bool.false_eq_true, if_false]
        cases hgk : get_knowledge_by_id s id with
        | none => exact I2_of_knowledges_eq h rfl
        | some k =>
          simp only []
          by_cases hm : fid ∈ knowledge_file_ids k
          · rw [if_pos hm]
            exact I2_of_knowledges_eq h rfl
          · rw [if_neg hm]
            have hs1 : I2 (process_file s fid id) := I2_of_knowledges_eq h rfl
            have hkmem : k ∈ s.knowledges := List.mem_of_find?_eq_some hgk
            have hnd : (knowledge_file_ids k ++ [fid]).Nodup := by
              refine (h k hkmem).append (List.nodup_singleton fid) ?_
              intro x hx hx'
              rw [List.mem_singleton] at hx'
              exact hm (hx' ▸ hx)
            have hres := I2_update (process_file s fid id) id
              (knowledge_file_ids k ++ [fid]) hs1 hnd
            rcases hup : update_knowledge_by_id (process_file s fid id) id
              (knowledge_file_ids k ++ [fid]) with ⟨o, s2⟩
            rw [hup] at hres
            cases o <;> exact hres

theorem I2_removeFile (s : SyncState) (id fid : String) (h : I2 s) :
    I2 (remove_file_from_knowledge_by_id s id fid).2 := by
  unfold remove_file_from_knowledge_by_id
  cases hgf : get_file_by_id s fid with
  | none => exact h
  | some f =>
    simp only []
    cases hgk : get_knowledge_by_id s id with
    | none => exact h
    | some k =>
      simp only []
      by_cases hm : fid ∈ knowledge_file_ids k
      · rw [if_pos hm]
        have hkmem : k ∈ s.knowledges := List.mem_of_find?_eq_some hgk
        have hs2 : I2 (delete_file_by_id (vector_delete s k.id fid) fid) :=
          I2_of_knowledges_eq h rfl
        have hnd : ((knowledge_file_ids k).erase fid).Nodup := (h k hkmem).erase fid
        have hres := I2_update (delete_file_by_id (vector_delete s k.id fid) fid) id
          ((knowledge_file_ids k).erase fid) hs2 hnd
        rcases hup : update_knowledge_by_id (delete_file_by_id (vector_delete s k.id fid) fid)
          id ((knowledge_file_ids k).erase fid) with ⟨o, s3⟩
        rw [hup] at hres
        cases o <;> exact hres
      · rw [if_neg hm]
        exact I2_of_knowledges_eq h rfl

theorem I2_deleteKnowledge (s : SyncState) (id : String) (h : I2 s) :
    I2 (delete_knowledge_by_id s id).2 := by
  intro k hk
  have hk' : k ∈ s.knowledges := by
    simp only [delete_knowledge_by_id, knowledges_delete_knowledge_by_id,
      vector_delete_collection, List.mem_filter] at hk
    exact hk.1
  exact h k hk'

/-- C5: invariant I2 (no duplicate in any collection's `file_ids`) is
preserved by every synchronizer operation — `addFile`, `removeFile` and
`deleteCollection` — and an `addFile` of a file_id that is already a member
fails with the duplicate-member conflict while leaving every knowledge
record, hence the stored `file_ids`, unchanged in length and content. -/
theorem synchronizer_preserves_I2
    (sa : SyncState) (ida fida : String) (oka : Bool) (ha : I2 sa)
    (sr : SyncState) (idr fidr : String) (hr : I2 sr)
    (sd : SyncState) (idd : String) (hd : I2 sd)
    (s : SyncState) (id fid : String) (f : FileRecord) (k : Knowledge)
    (hf : get_file_by_id s fid = some f) (hfd : f.data = true)
    (hk : get_knowledge_by_id s id = some k)
    (hm : fid ∈ knowledge_file_ids k) :
    I2 (add_file_to_knowledge_by_id sa ida fida oka).2
    ∧ I2 (remove_file_from_knowledge_by_id sr idr fidr).2
    ∧ I2 (delete_knowledge_by_id sd idd).2
    ∧ (add_file_to_knowledge_by_id s id fid true).1 = .conflictFileId
    ∧ (add_file_to_knowledge_by_id s id fid true).2.knowledges = s.knowledges := by
  refine ⟨I2_addFile sa ida fida oka ha, I2_removeFile sr idr fidr hr,
    I2_deleteKnowledge sd idd hd, ?_, ?_⟩
  · simp [add_file_to_knowledge_by_id, hf, hfd, hk, hm, process_file]
  · simp [add_file_to_knowledge_by_id, hf, hfd, hk, hm, process_file]

/-- Witness for C5's theorem. -/
theorem synchronizer_preserves_I2_witness :
    I2 (add_file_to_knowledge_by_id stNonMember "K1" "F2" true).2
    ∧ I2 (remove_file_from_knowledge_by_id stMember "K1" "F1").2
    ∧ I2 (delete_knowledge_by_id stMember "K1").2
    ∧ (add_file_to_knowledge_by_id stMember "K1" "F1" true).1 = .conflictFileId
    ∧ (add_file_to_knowledge_by_id stMember "K1" "F1" true).2.knowledges
        = stMember.knowledges :=
  synchronizer_preserves_I2
    stNonMember "K1" "F2" true (by decide)
    stMember "K1" "F1" (by decide)
    stMember "K1" (by decide)
    stMember "K1" "F1" ⟨"F1", true⟩ ⟨"K1", some ["F1"]⟩
    (by decide) rfl (by decide) (by decide)

/-- C6: `deleteCollection` unconditionally deletes the vector index for the
id (no entry for the id remains, whether or not a record existed), deletes
the knowledge record, and returns `true` iff a record existed; a second
delete of the same id therefore returns `false`, and the operation is total
(its result type admits no error outcome). -/
theorem deleteCollection_unconditional_idempotent (s : SyncState) (id : String) :
    ((delete_knowledge_by_id s id).1 = true ↔ ∃ k ∈ s.knowledges, k.id = id)
    ∧ (∀ e ∈ (delete_knowledge_by_id s id).2.vectors, e.1 ≠ id)
    ∧ get_knowledge_by_id (delete_knowledge_by_id s id).2 id = none
    ∧ (delete_knowledge_by_id (delete_knowledge_by_id s id).2 id).1 = false := by
  refine ⟨?_, ?_, ?_, ?_⟩
  · simp [delete_knowledge_by_id, knowledges_delete_knowledge_by_id,
      vector_delete_collection, List.any_eq_true]
  · intro e he
    simp only [delete_knowledge_by_id, knowledges_delete_knowledge_by_id,
      vector_delete_collection, List.mem_filter] at he
    simpa using he.2
  · apply List.find?_eq_none.mpr
    intro x hx
    simp only [delete_knowledge_by_id, knowledges_delete_knowledge_by_id,
      vector_delete_collection, List.mem_filter] at hx
    simpa using hx.2
  · rw [Bool.eq_false_iff]
    intro hany
    simp only [delete_knowledge_by_id, knowledges_delete_knowledge_by_id,
      vector_delete_collection, List.any_eq_true] at hany
    obtain ⟨x, hx, hxid⟩ := hany
    simp only [List.mem_filter] at hx
    exact absurd hxid (by simpa using hx.2)

/-- C7 counterexample: with bucket `mybucket`, prefix `uploads` and the
filename `a//c`, `upload_file` writes key `uploads/a//c` and returns the
locator `s3://mybucket/uploads/a//c`, but the `split("//")[1].split("/", 1)`
parse of that locator yields the key `uploads/a`, not the key that was
written, and `get_file` on the returned locator fails instead of
reproducing the bytes. -/
theorem locator_roundtrip_counterexample :
    (upload_file "mybucket".data "uploads".data ⟨[]⟩ [65] "a//c".data true).1
      = .ok [65] (s3_locator "mybucket".data "uploads".data "a//c".data)
    ∧ parse_locator (s3_locator "mybucket".data "uploads".data "a//c".data)
        = some ("mybucket".data, "uploads/a".data)
    ∧ "uploads/a".data ≠ s3_key "uploads".data "a//c".data
    ∧ get_file (upload_file "mybucket".data "uploads".data ⟨[]⟩ [65] "a//c".data true).2
        (s3_locator "mybucket".data "uploads".data "a//c".data) = none := by decide

/-- C7 (amended): for every non-empty content and every bucket, prefix and
filename such that the bucket contains no `/` and
`{bucket}/{prefix}/{filename}` contains no `//`, `upload_file` returns the
original bytes with the locator `s3://{bucket}/{prefix}/{filename}`, the
`get_file`/`as_local_file` parse of that locator recovers exactly the bucket
and the key `{prefix}/{filename}` that `upload_file` wrote, and `get_file`
on the locator yields the original bytes. -/
theorem locator_roundtrip
    (b p f : List Char) (st : S3State) (contents : List UInt8)
    (hc : contents ≠ [])
    (hb : ∀ c ∈ b, c ≠ '/')
    (hss : noSS (b ++ '/' :: (p ++ '/' :: f)) = true) :
    (upload_file b p st contents f true).1 = .ok contents (s3_locator b p f)
    ∧ parse_locator (s3_locator b p f) = some (b, s3_key p f)
    ∧ get_file (upload_file b p st contents f true).2 (s3_locator b p f) = some contents := by
  have hup : upload_file b p st contents f true
      = (.ok contents (s3_locator b p f), ⟨((b, s3_key p f), contents) :: st.objects⟩) := by
    simp [upload_file, hc]
  have hparse : parse_locator (s3_locator b p f) = some (b, s3_key p f) := by
    have h1 : s3_locator b p f
        = "s3:".data ++ '/' :: '/' :: (b ++ '/' :: (p ++ '/' :: f)) := rfl
    rw [parse_locator, h1, splitSS_append_sep "s3:".data _ (by decide),
      splitSS_of_noSS _ hss]
    have h2 : splitFirstSlash (b ++ '/' :: (p ++ '/' :: f)) = [b, p ++ '/' :: f] :=
      splitFirstSlash_append b _ hb
    simp [h2, s3_key]
  refine ⟨by rw [hup], hparse, ?_⟩
  rw [hup, get_file, hparse]
  simp [List.find?]

/-- Witness for C7's amended theorem. -/
theorem locator_roundtrip_witness :
    (upload_file "bkt".data "up".data ⟨[]⟩ [0, 1] "file.txt".data true).1
      = .ok [0, 1] (s3_locator "bkt".data "up".data "file.txt".data)
    ∧ parse_locator (s3_locator "bkt".data "up".data "file.txt".data)
        = some ("bkt".data, s3_key "up".data "file.txt".data)
    ∧ get_file (upload_file "bkt".data "up".data ⟨[]⟩ [0, 1] "file.txt".data true).2
        (s3_locator "bkt".data "up".data "file.txt".data) = some [0, 1] :=
  locator_roundtrip "bkt".data "up".data "file.txt".data ⟨[]⟩ [0, 1]
    (by decide) (by decide) (by decide)

/-- C8: `upload_file` fails with `EmptyContent` iff the content is empty
(with the store untouched); for non-empty content a backend failure is
surfaced as `BackendError` with the store untouched, and on backend success
it records the write under key `{prefix}/{filename}` and returns the pair
of the original bytes and the locator. -/
theorem upload_file_characterization
    (b p : List Char) (st : S3State) (fn : List Char) (ok : Bool) (cts : List UInt8)
    (b2 p2 : List Char) (st2 : S3State) (f2 : List Char) (c2 : List UInt8) (h2 : c2 ≠ [])
    (b3 p3 : List Char) (st3 : S3State) (f3 : List Char) (c3 : List UInt8) (h3 : c3 ≠ []) :
    ((upload_file b p st cts fn ok).1 = .emptyContent ↔ cts = [])
    ∧ upload_file b p st [] fn ok = (.emptyContent, st)
    ∧ upload_file b2 p2 st2 c2 f2 false = (.backendError, st2)
    ∧ upload_file b3 p3 st3 c3 f3 true
        = (.ok c3 (s3_locator b3 p3 f3), ⟨((b3, s3_key p3 f3), c3) :: st3.objects⟩) := by
  refine ⟨?_, ?_, ?_, ?_⟩
  · by_cases hc : cts = []
    · simp [upload_file, hc]
    · cases ok <;> simp [upload_file, hc]
  · simp [upload_file]
  · simp [upload_file, h2]
  · simp [upload_file, h3]

/-- Witness for C8's theorem. -/
theorem upload_file_characterization_witness :
    ((upload_file "b".data "p".data ⟨[]⟩ [7] "f".data true).1 = .emptyContent ↔ ([7] : List UInt8) = [])
    ∧ upload_file "b".data "p".data ⟨[]⟩ [] "f".data true = (.emptyContent, ⟨[]⟩)
    ∧ upload_file "b".data "p".data ⟨[]⟩ [7] "f".data false = (.backendError, ⟨[]⟩)
    ∧ upload_file "b".data "p".data ⟨[]⟩ [7] "f".data true
        = (.ok [7] (s3_locator "b".data "p".data "f".data),
           ⟨[(("b".data, s3_key "p".data "f".data), [7])]⟩) :=
  upload_file_characterization "b".data "p".data ⟨[]⟩ "f".data true [7]
    "b".data "p".data ⟨[]⟩ "f".data [7] (by decide)
    "b".data "p".data ⟨[]⟩ "f".data [7] (by decide)

/-- C10: `delete_file` deletes exactly the object whose key equals its
argument string in the configured bucket — no locator parsing — and for
non-empty prefix and filename the locator returned by `upload_file` differs
from the key `{prefix}/{filename}` that `upload_file` wrote, so passing the
locator to `delete_file` targets a different key than the one written. -/
theorem delete_file_raw_key_mismatch
    (bucket p f name : List Char) (st : S3State)
    (hp : p ≠ []) (hf : f ≠ []) :
    (∀ o, o ∈ (delete_file bucket st name).objects
        ↔ o ∈ st.objects ∧ ¬(o.1.1 = bucket ∧ o.1.2 = name))
    ∧ s3_locator bucket p f ≠ s3_key p f := by
  constructor
  · intro o
    simp only [delete_file, List.mem_filter, Bool.not_eq_eq_eq_not, Bool.not_true,
      Bool.and_eq_false_imp, beq_iff_eq, beq_eq_false_iff_ne, ne_eq]
    constructor
    · rintro ⟨hmem, himp⟩
      exact ⟨hmem, fun hand => himp hand.1 hand.2⟩
    · rintro ⟨hmem, hnot⟩
      exact ⟨hmem, fun hb hk => hnot ⟨hb, hk⟩⟩
  · intro h
    have hlen := congrArg List.length h
    have h5 : ("s3://".data).length = 5 := rfl
    simp only [s3_locator, s3_key, List.length_append, List.length_cons, h5] at hlen
    omega

/-- Witness for C10's theorem. -/
theorem delete_file_raw_key_mismatch_witness :
    (∀ o, o ∈ (delete_file "b".data ⟨[(("b".data, "p/f".data), [7])]⟩ "p/f".data).objects
        ↔ o ∈ (⟨[(("b".data, "p/f".data), [7])]⟩ : S3State).objects
          ∧ ¬(o.1.1 = "b".data ∧ o.1.2 = "p/f".data))
    ∧ s3_locator "b".data "p".data "f".data ≠ s3_key "p".data "f".data :=
  delete_file_raw_key_mismatch "b".data "p".data "f".data "p/f".data
    ⟨[(("b".data, "p/f".data), [7])]⟩ (by decide) (by decide)
